import Mathlib

/- Shallow embedding of the authentication and token-lifecycle subsystem of the
FAST_API contact-management service: the token codec wrappers and flows of
src/FAST_API/src/services/auth.py, the login/refresh routes of
src/FAST_API/src/routes/auth.py, and the user-store operations of
src/FAST_API/src/repository/users.py.  Times are Unix seconds (Nat); a JWT
string is represented by the structure `Token` below (jose encoding is
injective on distinct payloads, so structural equality models string
equality of tokens). -/

namespace FastApi

/-- JWT claim payload as this codebase uses it.  A Python dict key can be
absent, present with value `None`, or present with a string, so `sub` is
`Option (Option String)`: `none` = no "sub" key, `some none` = "sub": null,
`some (some s)` = "sub": s.  Every issuing path of this service sets `iat`
and `exp`, so they are plain fields.  `scope` is never null in this codebase
(`none` = no "scope" key — the email-token path). -/
structure Claims where
  sub : Option (Option String)
  iat : Nat
  exp : Nat
  scope : Option String
  deriving Repr, DecidableEq

/-- A signed token as produced by jose `jwt.encode(payload, key, algorithm)`:
the claim payload together with the key and algorithm it was signed with.
`jwt.decode` accepts the signature iff its own key and algorithm match. -/
structure Token where
  claims : Claims
  key : String
  alg : String
  deriving Repr, DecidableEq

/-- `config.SECRET_KEY_JWT` (src/FAST_API/src/conf/config.py default). -/
def SECRET_KEY : String := "1234567890"

/-- `config.ALGORITHM` (src/FAST_API/src/conf/config.py default). -/
def ALGORITHM : String := "HS256"

/-- Failure modes of jose `jwt.decode`: `signature` models JWSError/JWTError
(invalid signature or structure), `expired` models ExpiredSignatureError.
Both classes are subclasses of JWTError, so `except JWTError` catches both. -/
inductive JoseError where
  | signature
  | expired
  deriving Repr, DecidableEq

/-- jose `jwt.decode(token, key, algorithms=[alg])` evaluated at time `now`:
verifies the signature, then rejects when the `exp` claim is in the past
(ExpiredSignatureError), and on success returns the claim payload.  Every
token of this service carries `exp`, so the exp check always runs. -/
def jwtDecode (tok : Token) (key alg : String) (now : Nat) :
    Except JoseError Claims :=
  if tok.key = key ∧ tok.alg = alg then
    if tok.claims.exp < now then .error .expired
    else .ok tok.claims
  else .error .signature

/-- Result of a service operation: a normal return, a raised fastapi
`HTTPException` (status code and detail), or an uncaught Python exception
(its class name) — a crash that no handler in this code catches. -/
inductive Outcome (α : Type) where
  | ok (value : α)
  | httpError (status_code : Nat) (detail : String)
  | crash (exc : String)
  deriving Repr, DecidableEq

/-- The caller-supplied `data` dict of the token creators.  Every call site
passes `{"sub": email}`; `scope` models a "scope" key already present in
`data` (`create_email_token` copies it through unchanged, the other creators
overwrite it). -/
structure TokenData where
  sub : Option (Option String)
  scope : Option String
  deriving Repr, DecidableEq

/-- `Auth.create_access_token`: copies `data`, sets `iat = now`,
`exp = now + expires_delta` seconds — 15 minutes when `expires_delta` is
`None` or falsy (`0`) — and `scope = "access_token"`, then signs with
`SECRET_KEY`/`ALGORITHM`. -/
def create_access_token (data : TokenData) (now : Nat)
    (expires_delta : Option Nat) : Token :=
  let expire : Nat :=
    match expires_delta with
    | some d => if d = 0 then now + 15 * 60 else now + d
    | none => now + 15 * 60
  { claims := { sub := data.sub, iat := now, exp := expire,
                scope := some "access_token" },
    key := SECRET_KEY, alg := ALGORITHM }

/-- `Auth.create_refresh_token`: as `create_access_token` but the default ttl
is 7 days and `scope = "refresh_token"`. -/
def create_refresh_token (data : TokenData) (now : Nat)
    (expires_delta : Option Nat) : Token :=
  let expire : Nat :=
    match expires_delta with
    | some d => if d = 0 then now + 7 * 24 * 60 * 60 else now + d
    | none => now + 7 * 24 * 60 * 60
  { claims := { sub := data.sub, iat := now, exp := expire,
                scope := some "refresh_token" },
    key := SECRET_KEY, alg := ALGORITHM }

/-- `Auth.create_email_token`: copies `data`, sets `iat = now` and
`exp = now + 1 day`, and — unlike the other creators — sets no scope of its
own: the result carries a "scope" key only if `data` already had one.  The
one issuing path (`send_email` in services/email.py) passes
`{"sub": email}`, so the issued token carries only sub, iat, exp. -/
def create_email_token (data : TokenData) (now : Nat) : Token :=
  { claims := { sub := data.sub, iat := now, exp := now + 24 * 60 * 60,
                scope := data.scope },
    key := SECRET_KEY, alg := ALGORITHM }

/-- `Auth.decode_refresh_token`: jose-decodes the token (any JWTError —
invalid signature or expired — becomes 401 "Could not validate
credentials"), then looks up `payload["scope"]` (KeyError, uncaught by
`except JWTError`, when the key is absent); on scope "refresh_token" returns
`payload["sub"]` (KeyError when absent), otherwise raises 401 "Invalid scope
for token". -/
def decode_refresh_token (tok : Token) (now : Nat) : Outcome (Option String) :=
  match jwtDecode tok SECRET_KEY ALGORITHM now with
  | .error _ => .httpError 401 "Could not validate credentials"
  | .ok payload =>
    match payload.scope with
    | none => .crash "KeyError"
    | some s =>
      if s = "refresh_token" then
        match payload.sub with
        | none => .crash "KeyError"
        | some email => .ok email
      else .httpError 401 "Invalid scope for token"

/-- `Auth.get_email_from_token`: jose-decodes (signature and expiry only; any
JWTError becomes 422 "Invalid token for email verification") and returns
`payload["sub"]` — no scope field is ever consulted.  A missing "sub" key is
a KeyError the `except JWTError` handler does not catch. -/
def get_email_from_token (tok : Token) (now : Nat) : Outcome (Option String) :=
  match jwtDecode tok SECRET_KEY ALGORITHM now with
  | .error _ => .httpError 422 "Invalid token for email verification"
  | .ok payload =>
    match payload.sub with
    | none => .crash "KeyError"
    | some email => .ok email

/-- User record as entity/models.py declares it: id, username, email
(unique, non-null), password, avatar, refresh_token (nullable), timestamps —
and no `confirmed` column.  Only the fields the auth flows read are kept.
`refresh_token := none` models SQL NULL / Python `None`.  Because the model
declares no `confirmed` attribute, every access `user.confirmed` on a
freshly loaded row raises AttributeError. -/
structure User where
  email : String
  password : String
  refresh_token : Option Token
  deriving Repr, DecidableEq

/-- The user store: the rows of the users table. -/
def Db : Type := List User

/-- `repository.users.get_user_by_email`: `select(User).filter_by(email=...)`
then `scalar_one_or_none()`.  The argument is `Option String` because the
refresh route passes the decoded sub through, which can be Python `None`;
no row has a NULL email, so a `None` query matches nothing. -/
def get_user_by_email (email : Option String) (db : Db) : Option User :=
  List.find? (fun u => some u.email == email) db

/-- `repository.users.update_token`: sets `user.refresh_token = token` on the
row fetched for this user (rows are keyed by their unique email) and
commits. -/
def update_token (user : User) (token : Option Token) (db : Db) : Db :=
  List.map
    (fun u => if u.email = user.email then { u with refresh_token := token }
              else u) db

/-- Abstract model of passlib bcrypt hashing (`Auth.get_password_hash`):
hashing is an injective tagging of the plaintext.  Per-call random salting
and the wire format of bcrypt hashes are not modelled; no theorem below
depends on the hash internals. -/
def get_password_hash (password : String) : String :=
  "$2b$12$" ++ password

/-- `Auth.verify_password`, delegating to `pwd_context.verify` over the
abstract hash model. -/
def verify_password (plain_password hashed_password : String) : Bool :=
  get_password_hash plain_password == hashed_password

/-- The token pair returned by login and refresh. -/
structure TokenPair where
  access_token : Token
  refresh_token : Token
  token_type : String
  deriving Repr, DecidableEq

/-- `routes.auth.login`: user lookup by email (401 "Invalid email" when
absent); the source then evaluates `not user.confirmed`, but the User model
declares no `confirmed` attribute, so that access raises an uncaught
AttributeError for every found user — the 401 "Email not confirmed" branch,
the password verification (`verify_password`) branch and the token-issuing
success path that follow in the source are unreachable. -/
def login (db : Db) (username password : String) (now : Nat) :
    Outcome TokenPair × Db :=
  match get_user_by_email (some username) db with
  | none => (.httpError 401 "Invalid email", db)
  | some _user => (.crash "AttributeError", db)

/-- `routes.auth.refresh_token`: decodes the presented bearer with
`decode_refresh_token` (propagating its HTTPException or crash), looks the
user up by the decoded sub — when no user exists, `user.refresh_token`
dereferences `None`: an uncaught AttributeError — compares the presented
token with the stored one: on mismatch stores `None` and raises 401 "Invalid
refresh token"; on match rotates both tokens and stores the new refresh
token. -/
def refresh_token (db : Db) (tok : Token) (now : Nat) :
    Outcome TokenPair × Db :=
  match decode_refresh_token tok now with
  | .httpError c d => (.httpError c d, db)
  | .crash e => (.crash e, db)
  | .ok email =>
    match get_user_by_email email db with
    | none => (.crash "AttributeError", db)
    | some user =>
      if user.refresh_token ≠ some tok then
        (.httpError 401 "Invalid refresh token", update_token user none db)
      else
        let access := create_access_token
          { sub := some email, scope := none } now none
        let newRefresh := create_refresh_token
          { sub := some email, scope := none } now none
        (.ok { access_token := access, refresh_token := newRefresh,
               token_type := "bearer" },
         update_token user (some newRefresh) db)

/-- `Auth.get_current_user`: jose-decodes the bearer (any JWTError becomes
401 "Could not validate credentials"), looks up `payload["scope"]` (uncaught
KeyError when absent); on scope "access_token" reads `payload["sub"]`
(uncaught KeyError when absent), rejects a null sub with 401, then looks the
user up and rejects a missing user with 401; any other scope is rejected
with the same 401. -/
def get_current_user (tok : Token) (db : Db) (now : Nat) : Outcome User :=
  match jwtDecode tok SECRET_KEY ALGORITHM now with
  | .error _ => .httpError 401 "Could not validate credentials"
  | .ok payload =>
    match payload.scope with
    | none => .crash "KeyError"
    | some s =>
      if s = "access_token" then
        match payload.sub with
        | none => .crash "KeyError"
        | some email =>
          if email = none then
            .httpError 401 "Could not validate credentials"
          else
            match get_user_by_email email db with
            | none => .httpError 401 "Could not validate credentials"
            | some user => .ok user
      else .httpError 401 "Could not validate credentials"

/-- Concrete email used by the closed counterexamples and witnesses. -/
def emailA : String := "a@x.com"

/-- A refresh token issued for `emailA` at time 100 (expires at 100 + 7 d). -/
def tokValidRefresh : Token :=
  create_refresh_token { sub := some (some emailA), scope := none } 100 none

/-- A later rotation of the refresh token for `emailA` (distinct `iat`, hence
a distinct token string). -/
def tokRefreshRotated : Token :=
  create_refresh_token { sub := some (some emailA), scope := none } 101 none

/-- An access token issued for `emailA` at time 100 (expires at 1000). -/
def tokAccessA : Token :=
  create_access_token { sub := some (some emailA), scope := none } 100 none

/-- The email-verification token issued for `emailA` at time 100. -/
def tokEmailA : Token :=
  create_email_token { sub := some (some emailA), scope := none } 100

/-- A validly-signed refresh-scoped token whose `exp` (10) is in the past. -/
def tokExpiredRefresh : Token :=
  { claims := { sub := some (some emailA), iat := 0, exp := 10,
                scope := some "refresh_token" },
    key := SECRET_KEY, alg := ALGORITHM }

/-- An unexpired refresh-scoped token signed with the wrong key: its
signature does not verify. -/
def tokForgedRefresh : Token :=
  { claims := { sub := some (some emailA), iat := 0, exp := 100000,
                scope := some "refresh_token" },
    key := "attacker-key", alg := ALGORITHM }

/-- A validly-signed, unexpired access-scoped token whose claims carry no
"sub" key. -/
def tokNoSub : Token :=
  { claims := { sub := none, iat := 0, exp := 100000,
                scope := some "access_token" },
    key := SECRET_KEY, alg := ALGORITHM }

/-- The registered user for `emailA`, currently storing `tokValidRefresh`. -/
def userA : User :=
  { email := emailA, password := get_password_hash "hunter2",
    refresh_token := some tokValidRefresh }

/-- A store holding exactly `userA`. -/
def dbA : Db := [userA]

/-- Updating the refresh token of the user found for `e` leaves that user
findable, with only the `refresh_token` field changed (row emails are not
touched by `update_token`). -/
theorem get_user_by_email_update_token (db : Db) (e : Option String)
    (u : User) (t : Option Token) (h : get_user_by_email e db = some u) :
    get_user_by_email e (update_token u t db) =
      some { u with refresh_token := t } := by
  induction db with
  | nil => simp [get_user_by_email] at h
  | cons x xs ih =>
    unfold get_user_by_email at h
    unfold get_user_by_email update_token
    rw [List.map_cons]
    by_cases hx : (some x.email == e) = true
    · rw [@List.find?_cons_of_pos _ (fun u => some u.email == e) x xs hx] at h
      injection h with h
      subst h
      have hif : (if x.email = x.email then { x with refresh_token := t }
          else x) = { x with refresh_token := t } := if_pos rfl
      rw [hif]
      exact @List.find?_cons_of_pos _ (fun u => some u.email == e)
        { x with refresh_token := t } _ hx
    · rw [@List.find?_cons_of_neg _ (fun u => some u.email == e) x xs hx] at h
      have hemail : (if x.email = u.email then { x with refresh_token := t }
          else x).email = x.email := by
        by_cases hxe : x.email = u.email <;> simp [hxe]
      have hneg : ¬ ((some (if x.email = u.email then
          { x with refresh_token := t } else x).email == e) = true) := by
        rw [hemail]; exact hx
      have hstep := @List.find?_cons_of_neg _ (fun u => some u.email == e)
        (if x.email = u.email then { x with refresh_token := t } else x)
        (List.map (fun v => if v.email = u.email then
          { v with refresh_token := t } else v) xs) hneg
      rw [hstep]
      exact ih h

/-- jose decode accepts a token signed with the service key and algorithm
whose `exp` is not in the past, returning its claims. -/
theorem jwtDecode_ok (tok : Token) (now : Nat) (h1 : tok.key = SECRET_KEY)
    (h2 : tok.alg = ALGORITHM) (h3 : ¬ tok.claims.exp < now) :
    jwtDecode tok SECRET_KEY ALGORITHM now = .ok tok.claims := by
  simp [jwtDecode, h1, h2, h3]

/-- C2 (code bug): for every registered user the store returns, login
crashes with an uncaught AttributeError when it evaluates
`not user.confirmed` — the User model declares no `confirmed` column — for
every supplied password; it never reaches the 401 "Email not confirmed"
branch the route docstring promises. -/
theorem c2_login_crashes_on_confirmed_access (db : Db) (user : User)
    (username password : String) (now : Nat)
    (h : get_user_by_email (some username) db = some user) :
    login db username password now = (.crash "AttributeError", db) := by
  unfold login
  rw [h]

/-- C2 witness: logging in as the registered `emailA` with its correct
password crashes. -/
theorem c2_witness :
    get_user_by_email (some emailA) dbA = some userA
    ∧ login dbA emailA "hunter2" 100 = (.crash "AttributeError", dbA) :=
  ⟨by decide,
   c2_login_crashes_on_confirmed_access dbA userA emailA "hunter2" 100
     (by decide)⟩

/-- C3: the email-token issuing path (called with `data = {"sub": email}`)
produces claims carrying exactly sub, iat, exp and no scope; and
`get_email_from_token` checks only signature and expiry, so it succeeds on
every validly-signed unexpired token that carries a "sub" key — access and
refresh tokens included — returning that sub. -/
theorem c3_email_token_scopeless_and_decode_ignores_scope
    (s : Option (Option String)) (issued : Nat)
    (tok : Token) (v : Option String) (now : Nat)
    (h1 : tok.key = SECRET_KEY) (h2 : tok.alg = ALGORITHM)
    (h3 : ¬ tok.claims.exp < now) (h4 : tok.claims.sub = some v) :
    (create_email_token { sub := s, scope := none } issued).claims
      = { sub := s, iat := issued, exp := issued + 24 * 60 * 60, scope := none }
    ∧ get_email_from_token tok now = .ok v := by
  constructor
  · rfl
  · unfold get_email_from_token
    rw [jwtDecode_ok tok now h1 h2 h3]
    simp [h4]

/-- C3 witness: the concrete access token for `emailA` (scope
"access_token") is accepted by `get_email_from_token`, which returns its
sub. -/
theorem c3_witness :
    ¬ tokAccessA.claims.exp < 200
    ∧ (create_email_token { sub := some (some emailA), scope := none }
        100).claims.scope = none
    ∧ get_email_from_token tokAccessA 200 = .ok (some emailA) :=
  ⟨by decide,
   congrArg Claims.scope
     (c3_email_token_scopeless_and_decode_ignores_scope
       (some (some emailA)) 100 tokAccessA (some emailA) 200
       rfl rfl (by decide) rfl).1,
   (c3_email_token_scopeless_and_decode_ignores_scope
       (some (some emailA)) 100 tokAccessA (some emailA) 200
       rfl rfl (by decide) rfl).2⟩

/-- C5 counterexample: on the concrete expired-but-validly-signed refresh
token, `decode_refresh_token` produces exactly the same error as on the
concrete invalid-signature token — 401 "Could not validate credentials" in
both cases — so the failure surfaced for an expired token is not an
expiry-specific error distinct from the invalid-signature error (only the
wrong-scope error "Invalid scope for token" is distinct). -/
theorem c5_counterexample_expired_error_equals_signature_error :
    decode_refresh_token tokExpiredRefresh 1000 =
      .httpError 401 "Could not validate credentials"
    ∧ decode_refresh_token tokForgedRefresh 1000 =
      .httpError 401 "Could not validate credentials"
    ∧ decode_refresh_token tokExpiredRefresh 1000 =
      decode_refresh_token tokForgedRefresh 1000
    ∧ jwtDecode tokExpiredRefresh SECRET_KEY ALGORITHM 1000 = .error .expired
    ∧ jwtDecode tokForgedRefresh SECRET_KEY ALGORITHM 1000 =
      .error .signature := by
  refine ⟨by decide, by decide, by decide, rfl, rfl⟩

/-- C5 (amended): a token with `exp` in the past always fails decode even
when its signature is valid; the expiry-specific failure
(ExpiredSignatureError) exists only at the jose layer — the service's
`except JWTError` maps it to the same 401 "Could not validate credentials"
as an invalid signature, in both `decode_refresh_token` and
`get_current_user`; that error is distinct from the wrong-scope error. -/
theorem c5_expired_token_always_fails (tok : Token) (db : Db) (now : Nat)
    (h1 : tok.key = SECRET_KEY) (h2 : tok.alg = ALGORITHM)
    (h3 : tok.claims.exp < now) :
    jwtDecode tok SECRET_KEY ALGORITHM now = .error .expired
    ∧ decode_refresh_token tok now =
        .httpError 401 "Could not validate credentials"
    ∧ get_current_user tok db now =
        .httpError 401 "Could not validate credentials"
    ∧ ("Could not validate credentials" : String) ≠ "Invalid scope for token"
    := by
  have hdec : jwtDecode tok SECRET_KEY ALGORITHM now = .error .expired := by
    simp [jwtDecode, h1, h2, h3]
  refine ⟨hdec, ?_, ?_, by decide⟩
  · unfold decode_refresh_token
    rw [hdec]
  · unfold get_current_user
    rw [hdec]

/-- C5 witness: the amended statement evaluated on the concrete expired
refresh token at time 1000. -/
theorem c5_witness :
    tokExpiredRefresh.claims.exp < 1000
    ∧ (jwtDecode tokExpiredRefresh SECRET_KEY ALGORITHM 1000 = .error .expired
       ∧ decode_refresh_token tokExpiredRefresh 1000 =
           .httpError 401 "Could not validate credentials"
       ∧ get_current_user tokExpiredRefresh dbA 1000 =
           .httpError 401 "Could not validate credentials"
       ∧ ("Could not validate credentials" : String) ≠
           "Invalid scope for token") :=
  ⟨by decide,
   c5_expired_token_always_fails tokExpiredRefresh dbA 1000 rfl rfl
     (by decide)⟩

/-- C6: a validly-signed unexpired token carrying scope `s` is rejected with
401 when presented where another scope is expected: `decode_refresh_token`
rejects any `s ≠ "refresh_token"` with "Invalid scope for token", and
`get_current_user` rejects any `s ≠ "access_token"` with "Could not
validate credentials". -/
theorem c6_wrong_scope_rejected (tok : Token) (db : Db) (now : Nat)
    (s : String)
    (h1 : tok.key = SECRET_KEY) (h2 : tok.alg = ALGORITHM)
    (h3 : ¬ tok.claims.exp < now) (h4 : tok.claims.scope = some s) :
    (s ≠ "refresh_token" →
      decode_refresh_token tok now = .httpError 401 "Invalid scope for token")
    ∧ (s ≠ "access_token" →
      get_current_user tok db now =
        .httpError 401 "Could not validate credentials") := by
  constructor
  · intro hs
    unfold decode_refresh_token
    rw [jwtDecode_ok tok now h1 h2 h3]
    simp [h4, hs]
  · intro hs
    unfold get_current_user
    rw [jwtDecode_ok tok now h1 h2 h3]
    simp [h4, hs]

/-- C6 witness: the concrete access token is rejected by
`decode_refresh_token` and the concrete refresh token is rejected by
`get_current_user`. -/
theorem c6_witness :
    decode_refresh_token tokAccessA 200 =
      .httpError 401 "Invalid scope for token"
    ∧ get_current_user tokValidRefresh dbA 200 =
      .httpError 401 "Could not validate credentials" :=
  ⟨(c6_wrong_scope_rejected tokAccessA dbA 200 "access_token"
      rfl rfl (by decide) rfl).1 (by decide),
   (c6_wrong_scope_rejected tokValidRefresh dbA 200 "refresh_token"
      rfl rfl (by decide) rfl).2 (by decide)⟩

/-- C7: round-trip — for every data dict carrying a sub, a freshly encoded
access token decodes (within its ttl) to claims preserving that sub with
scope "access_token", and a freshly encoded refresh token presented to
`decode_refresh_token` (within its ttl) returns exactly the encoded sub. -/
theorem c7_encode_decode_roundtrip (data : TokenData) (v : Option String)
    (now now2 : Nat) (delta : Option Nat)
    (hsub : data.sub = some v)
    (hA : ¬ (create_access_token data now delta).claims.exp < now2)
    (hR : ¬ (create_refresh_token data now delta).claims.exp < now2) :
    jwtDecode (create_access_token data now delta) SECRET_KEY ALGORITHM now2
      = .ok (create_access_token data now delta).claims
    ∧ (create_access_token data now delta).claims.sub = some v
    ∧ (create_access_token data now delta).claims.scope = some "access_token"
    ∧ decode_refresh_token (create_refresh_token data now delta) now2 = .ok v
    := by
  refine ⟨jwtDecode_ok _ now2 rfl rfl hA, ?_, rfl, ?_⟩
  · exact hsub
  · unfold decode_refresh_token
    rw [jwtDecode_ok _ now2 rfl rfl hR]
    simp [create_refresh_token, hsub]

/-- C7 witness: the round trip evaluated for `emailA` with the default ttls,
issuing at time 100 and decoding at time 200. -/
theorem c7_witness :
    decode_refresh_token
      (create_refresh_token { sub := some (some emailA), scope := none }
        100 none) 200 = .ok (some emailA)
    ∧ (create_access_token { sub := some (some emailA), scope := none }
        100 none).claims.sub = some (some emailA) :=
  ⟨(c7_encode_decode_roundtrip { sub := some (some emailA), scope := none }
      (some emailA) 100 200 none rfl (by decide) (by decide)).2.2.2,
   (c7_encode_decode_roundtrip { sub := some (some emailA), scope := none }
      (some emailA) 100 200 none rfl (by decide) (by decide)).2.1⟩

/-- A validly-signed, unexpired token with scope "refresh_token" and a "sub"
key decodes to its sub. -/
theorem decode_refresh_token_ok (tok : Token) (now : Nat) (e : Option String)
    (h1 : tok.key = SECRET_KEY) (h2 : tok.alg = ALGORITHM)
    (h3 : ¬ tok.claims.exp < now)
    (h4 : tok.claims.scope = some "refresh_token")
    (h5 : tok.claims.sub = some e) :
    decode_refresh_token tok now = .ok e := by
  unfold decode_refresh_token
  rw [jwtDecode_ok tok now h1 h2 h3]
  simp [h4, h5]

/-- C1: presenting a decodable refresh token for a stored user that differs
from the stored one makes the refresh route clear the stored token and fail
with 401 "Invalid refresh token"; in the resulting store the user's token is
`None`, so a subsequent refresh presenting the originally stored
(once-valid) token `tok0` fails the same way — `None` cannot equal it. -/
theorem c1_refresh_mismatch_clears_token_and_blocks_replay
    (db : Db) (user : User) (e : Option String) (tok tok0 : Token)
    (now now2 : Nat)
    (h1 : tok.key = SECRET_KEY) (h2 : tok.alg = ALGORITHM)
    (h3 : ¬ tok.claims.exp < now)
    (h4 : tok.claims.scope = some "refresh_token")
    (h5 : tok.claims.sub = some e)
    (h6 : get_user_by_email e db = some user)
    (h7 : user.refresh_token = some tok0) (h8 : tok0 ≠ tok)
    (g1 : tok0.key = SECRET_KEY) (g2 : tok0.alg = ALGORITHM)
    (g3 : ¬ tok0.claims.exp < now2)
    (g4 : tok0.claims.scope = some "refresh_token")
    (g5 : tok0.claims.sub = some e) :
    refresh_token db tok now =
      (.httpError 401 "Invalid refresh token", update_token user none db)
    ∧ get_user_by_email e (update_token user none db) =
      some { user with refresh_token := none }
    ∧ (refresh_token (update_token user none db) tok0 now2).1 =
      .httpError 401 "Invalid refresh token" := by
  have hmis : user.refresh_token ≠ some tok := by
    rw [h7]
    intro hcontra
    exact h8 (Option.some.inj hcontra)
  have hafter := get_user_by_email_update_token db e user none h6
  refine ⟨?_, hafter, ?_⟩
  · unfold refresh_token
    rw [decode_refresh_token_ok tok now e h1 h2 h3 h4 h5]
    simp [h6, hmis]
  · unfold refresh_token
    rw [decode_refresh_token_ok tok0 now2 e g1 g2 g3 g4 g5]
    simp [hafter]

/-- C1 witness: the concrete store holding `userA` (stored token
`tokValidRefresh`), presented with the rotated token `tokRefreshRotated`:
the call fails, the stored token becomes `None`, and replaying
`tokValidRefresh` afterwards fails too. -/
theorem c1_witness :
    userA.refresh_token = some tokValidRefresh
    ∧ tokValidRefresh ≠ tokRefreshRotated
    ∧ (refresh_token dbA tokRefreshRotated 200 =
        (.httpError 401 "Invalid refresh token", update_token userA none dbA)
       ∧ get_user_by_email (some emailA) (update_token userA none dbA) =
        some { userA with refresh_token := none }
       ∧ (refresh_token (update_token userA none dbA) tokValidRefresh 300).1
        = .httpError 401 "Invalid refresh token") :=
  ⟨rfl, by decide,
   c1_refresh_mismatch_clears_token_and_blocks_replay dbA userA
     (some emailA) tokRefreshRotated tokValidRefresh 200 300
     rfl rfl (by decide) rfl rfl (by decide) rfl (by decide)
     rfl rfl (by decide) rfl rfl⟩

/-- C4 counterexample: the concrete validly-signed, unexpired,
"access_token"-scoped token whose claims carry no "sub" key makes
`get_current_user` crash with an uncaught KeyError instead of failing with
the 401 Unauthorized error the claim requires. -/
theorem c4_counterexample_missing_sub_crashes :
    get_current_user tokNoSub dbA 5 = .crash "KeyError"
    ∧ get_current_user tokNoSub dbA 5 ≠
      .httpError 401 "Could not validate credentials" := by
  refine ⟨by decide, by decide⟩

/-- C4 (amended): `get_current_user` fails with 401 "Could not validate
credentials" when jose decode fails (invalid signature or expired), when the
scope claim is present but not "access_token", when the sub claim is present
but null, or when no user exists for the sub; when the "scope" or "sub" key
is absent from the decoded claims it instead crashes with an uncaught
KeyError; in the remaining case it returns the user found for sub. -/
theorem c4_get_current_user_case_analysis (tok : Token) (db : Db) (now : Nat)
    (err : JoseError) (s : String) (v : String) (u : User) :
    (jwtDecode tok SECRET_KEY ALGORITHM now = .error err →
      get_current_user tok db now =
        .httpError 401 "Could not validate credentials")
    ∧ (jwtDecode tok SECRET_KEY ALGORITHM now = .ok tok.claims →
       tok.claims.scope = none →
      get_current_user tok db now = .crash "KeyError")
    ∧ (jwtDecode tok SECRET_KEY ALGORITHM now = .ok tok.claims →
       tok.claims.scope = some s → s ≠ "access_token" →
      get_current_user tok db now =
        .httpError 401 "Could not validate credentials")
    ∧ (jwtDecode tok SECRET_KEY ALGORITHM now = .ok tok.claims →
       tok.claims.scope = some "access_token" → tok.claims.sub = none →
      get_current_user tok db now = .crash "KeyError")
    ∧ (jwtDecode tok SECRET_KEY ALGORITHM now = .ok tok.claims →
       tok.claims.scope = some "access_token" →
       tok.claims.sub = some none →
      get_current_user tok db now =
        .httpError 401 "Could not validate credentials")
    ∧ (jwtDecode tok SECRET_KEY ALGORITHM now = .ok tok.claims →
       tok.claims.scope = some "access_token" →
       tok.claims.sub = some (some v) →
       get_user_by_email (some v) db = none →
      get_current_user tok db now =
        .httpError 401 "Could not validate credentials")
    ∧ (jwtDecode tok SECRET_KEY ALGORITHM now = .ok tok.claims →
       tok.claims.scope = some "access_token" →
       tok.claims.sub = some (some v) →
       get_user_by_email (some v) db = some u →
      get_current_user tok db now = .ok u) := by
  refine ⟨?_, ?_, ?_, ?_, ?_, ?_, ?_⟩
  · intro hdec
    unfold get_current_user
    rw [hdec]
  · intro hdec hscope
    unfold get_current_user
    rw [hdec]
    simp [hscope]
  · intro hdec hscope hs
    unfold get_current_user
    rw [hdec]
    simp [hscope, hs]
  · intro hdec hscope hsub
    unfold get_current_user
    rw [hdec]
    simp [hscope, hsub]
  · intro hdec hscope hsub
    unfold get_current_user
    rw [hdec]
    simp [hscope, hsub]
  · intro hdec hscope hsub hu
    unfold get_current_user
    rw [hdec]
    simp [hscope, hsub, hu]
  · intro hdec hscope hsub hu
    unfold get_current_user
    rw [hdec]
    simp [hscope, hsub, hu]

/-- C4 witness: the success case evaluated on the concrete access token for
`emailA` against the store holding `userA`. -/
theorem c4_witness :
    get_user_by_email (some emailA) dbA = some userA
    ∧ get_current_user tokAccessA dbA 200 = .ok userA :=
  ⟨by decide,
   (c4_get_current_user_case_analysis tokAccessA dbA 200 .expired
      "access_token" emailA userA).2.2.2.2.2.2
     (jwtDecode_ok tokAccessA 200 rfl rfl (by decide)) rfl rfl (by decide)⟩

/-- C9: when `decode_refresh_token` accepts the presented token but no user
exists for the decoded sub, the refresh route dereferences `None`
(`user.refresh_token`) and crashes with an uncaught AttributeError instead
of returning a typed 401 — the missing-user branch is absent. -/
theorem c9_refresh_unknown_user_crashes (db : Db) (tok : Token) (now : Nat)
    (e : Option String)
    (h1 : decode_refresh_token tok now = .ok e)
    (h2 : get_user_by_email e db = none) :
    refresh_token db tok now = (.crash "AttributeError", db) := by
  unfold refresh_token
  rw [h1]
  simp [h2]

/-- C9 witness: the valid refresh token for `emailA` presented against an
empty store crashes the refresh route. -/
theorem c9_witness :
    decode_refresh_token tokValidRefresh 200 = .ok (some emailA)
    ∧ refresh_token [] tokValidRefresh 200 = (.crash "AttributeError", []) :=
  ⟨by decide,
   c9_refresh_unknown_user_crashes [] tokValidRefresh 200 (some emailA)
     (by decide) rfl⟩

/-- C10: a validly-signed, unexpired token carrying no "scope" key — such as
the email-verification token — crashes both `get_current_user` and
`decode_refresh_token` with an uncaught KeyError at `payload["scope"]`
(KeyError is not a JWTError, so the handler does not catch it) instead of
returning 401. -/
theorem c10_scopeless_token_crashes_scope_lookup (tok : Token) (db : Db)
    (now : Nat)
    (h1 : tok.key = SECRET_KEY) (h2 : tok.alg = ALGORITHM)
    (h3 : ¬ tok.claims.exp < now) (h4 : tok.claims.scope = none) :
    get_current_user tok db now = .crash "KeyError"
    ∧ decode_refresh_token tok now = .crash "KeyError" := by
  constructor
  · unfold get_current_user
    rw [jwtDecode_ok tok now h1 h2 h3]
    simp [h4]
  · unfold decode_refresh_token
    rw [jwtDecode_ok tok now h1 h2 h3]
    simp [h4]

/-- C10 witness: the concrete email-verification token for `emailA` crashes
both consumers. -/
theorem c10_witness :
    tokEmailA.claims.scope = none
    ∧ get_current_user tokEmailA dbA 200 = .crash "KeyError"
    ∧ decode_refresh_token tokEmailA 200 = .crash "KeyError" :=
  ⟨rfl,
   (c10_scopeless_token_crashes_scope_lookup tokEmailA dbA 200
      rfl rfl (by decide) rfl).1,
   (c10_scopeless_token_crashes_scope_lookup tokEmailA dbA 200
      rfl rfl (by decide) rfl).2⟩

end FastApi
